import Mathlib

/-!
Verification development for the quiz task-chain solver (`app.py`).

The Python program is shallowly embedded below.  External libraries
(urllib, the regex engine, json/base64 codecs, playwright's renderer,
requests, pdfplumber's byte-level PDF parser) are modelled as pure
oracle functions collected in a `World` record or as explicit inputs;
everything the repository itself computes (the control loop, the
extraction heuristics, the PDF table summation, the response handling)
is translated directly from `app.py`.
-/

/-- JSON values, as produced by `json.loads` / `resp.json()`. -/
inductive Json where
  | null
  | bool (b : Bool)
  | num (q : Rat)
  | str (s : String)
  | arr (xs : List Json)
  | obj (kvs : List (String × Json))

/-- Lookup of a key in a JSON-object member list (Python `dict.get`). -/
def lookupKV (kvs : List (String × Json)) (k : String) : Option Json :=
  (kvs.find? (fun p => p.1 == k)).map (fun p => p.2)

/-- Python `d.get(k)` when the value may not be a dict: `None` otherwise. -/
def Json.get : Json → String → Option Json
  | .obj kvs, k => lookupKV kvs k
  | _, _ => none

/-- Python truthiness of a JSON value (`if next_url:`). -/
def Json.truthy : Json → Bool
  | .null => false
  | .bool b => b
  | .num q => q != 0
  | .str s => s != ""
  | .arr xs => !xs.isEmpty
  | .obj kvs => !kvs.isEmpty

/-- Python `x is True` for an optional JSON field. -/
def Json.isTrue : Option Json → Bool
  | some (.bool true) => true
  | _ => false

/-- Python truthiness of an optional JSON field (`None` is falsy). -/
def Json.truthyOpt : Option Json → Bool
  | none => false
  | some j => j.truthy

/-- Python `candidate == current_url` where `candidate` is a `str`:
equality holds only when the value is that same string. -/
def Json.eqStr : Json → String → Bool
  | .str t, s => t == s
  | _, _ => false

/-- View of a JSON value as a string (loop URLs are strings whenever a
navigation has succeeded on them). -/
def Json.asStr : Json → String
  | .str s => s
  | _ => ""

/-- Whether the first list is an initial segment of the second (helper
for the substring and suffix tests below). -/
def matchesAt : List Char → List Char → Bool
  | [], _ => true
  | _ :: _, [] => false
  | p :: ps, c :: cs => p == c && matchesAt ps cs

/-- Whether `pat` occurs as a contiguous sub-list. -/
def hasSubList (pat : List Char) : List Char → Bool
  | [] => pat.isEmpty
  | c :: cs => matchesAt pat (c :: cs) || hasSubList pat cs

/-- Substring containment, Python `pat in s`. -/
def strContains (s pat : String) : Bool :=
  hasSubList pat.data s.data

/-- Python `s.lower()` (ASCII case folding, character by character). -/
def lowerStr (s : String) : String :=
  ⟨s.data.map Char.toLower⟩

/-- Python `s.endswith(suffix)`. -/
def strEndsWith (s tail : String) : Bool :=
  matchesAt tail.data.reverse s.data.reverse

/-- Python `s[:n]` on character strings. -/
def strTake (s : String) (n : Nat) : String :=
  ⟨s.data.take n⟩

/-- Python `s.strip()`: whitespace removed from both ends. -/
def strTrim (s : String) : String :=
  ⟨((s.data.dropWhile Char.isWhitespace).reverse.dropWhile Char.isWhitespace).reverse⟩

/-- Python `s.replace(",", "")`, the one `replace` call of the source. -/
def replaceCommas (s : String) : String :=
  ⟨s.data.filter (fun c => c != ',')⟩

/-- Numeric value of a digit list. -/
def digitsVal (cs : List Char) : Nat :=
  cs.foldl (fun a c => a * 10 + (c.toNat - 48)) 0

/-- Python `re.fullmatch(r"[-+]?\d+", v)` as a Boolean test. -/
def isIntToken (s : String) : Bool :=
  let cs := match s.toList with
    | '-' :: r => r
    | '+' :: r => r
    | cs => cs
  !cs.isEmpty && cs.all Char.isDigit

/-- Python `int(v)` on a token matching `[-+]?\d+`. -/
def parseIntTok (s : String) : Int :=
  match s.toList with
  | '-' :: r => -(digitsVal r : Int)
  | '+' :: r => (digitsVal r : Int)
  | cs => (digitsVal cs : Int)

/-- Python `float(v)` on decimal literals: optional sign, digits with an
optional single decimal point (at least one digit overall); `none`
models `float` raising `ValueError`. -/
def pyFloat (s : String) : Option Rat :=
  let (sgn, cs) : Rat × List Char := match s.toList with
    | '-' :: r => (-1, r)
    | '+' :: r => (1, r)
    | cs => (1, cs)
  let intPart := cs.takeWhile Char.isDigit
  let rest := cs.dropWhile Char.isDigit
  match rest with
  | [] =>
    if intPart.isEmpty then none
    else some (sgn * (digitsVal intPart : Rat))
  | '.' :: frac =>
    if frac.all Char.isDigit && !(intPart.isEmpty && frac.isEmpty) then
      some (sgn * ((digitsVal intPart : Rat) + (digitsVal frac : Rat) / (10 ^ frac.length)))
    else none
  | _ => none

/-- A page of a PDF document as seen through `pdfplumber`:
`extractTable` is the result of `page.extract_table()`, where `none`
collapses both a `None` return and the call raising (the source wraps
the call in `try` and returns `None` either way). -/
structure PDFPage where
  extractTable : Option (List (List (Option String)))

/-- A PDF document opened by `pdfplumber.open`. -/
structure PDFDoc where
  pages : List PDFPage

/-- Embedding of `sum_values_on_pdf_page2(pdf_bytes, column_name)`.
The byte string argument is represented by the outcome of
`pdfplumber.open` on it: `none` when `open` raises (as it does on bytes
that are not a valid PDF document), `some pdf` otherwise.  That `open`
call sits OUTSIDE the function's `try` block in the source, so its
exception propagates: the embedding returns `Except.error` there. -/
def sum_values_on_pdf_page2 (openRes : Option PDFDoc) (column_name : String) :
    Except Unit (Option Rat) :=
  match openRes with
  | none => .error ()
  | some pdf =>
    match pdf.pages with
    | p0 :: p1 :: rest =>
      let _ := (p0, rest)
      match p1.extractTable with
      | none => .ok none
      | some [] => .ok none
      | some (headers :: rows) =>
        let headers_lower := headers.map (fun h => lowerStr (h.getD ""))
        match headers_lower.findIdx? (fun h => h == lowerStr column_name) with
        | none => .ok none
        | some idx =>
          let s := rows.foldl (fun acc row =>
            match row[idx]? with
            | none => acc
            | some none => acc
            | some (some v) =>
              match pyFloat (strTrim (replaceCommas v)) with
              | none => acc
              | some q => acc + q) (0 : Rat)
          .ok (some s)
    | _ => .ok none

/-- Outcome of `requests.post(submit_url, json=payload, timeout=timeout)`:
either the request raised a `RequestException`, or it produced a
response with a status code, an optional JSON-parsed body (`none` when
`resp.json()` raises) and the raw text. -/
inductive PostResult where
  | netErr
  | ok (status : Nat) (body : Option Json) (text : String)

/-- Embedding of `submit_answer_json`: `raise_for_status()` raises (an
`HTTPError`, a `RequestException`) for statuses 400–599; a body that
fails to parse as JSON is wrapped as `{"non_json_response": text}`. -/
def submit_answer_json : PostResult → Except Unit Json
  | .netErr => .error ()
  | .ok status body text =>
    if 400 ≤ status ∧ status < 600 then .error ()
    else
      match body with
      | some j => .ok j
      | none => .ok (.obj [("non_json_response", .str text)])

/-- Rendered page as playwright exposes it to this program:
`preText` is the inner text of the first `<pre>` element (`none` when
`query_selector("pre")` finds nothing), `anchors` the `href` attributes
of the `a[href]` elements in document order, `bodyText` the result of
`inner_text("body")` (`none` when that call raises), and `url` the
page's URL after navigation. -/
structure PageView where
  url : String
  preText : Option String
  anchors : List String
  bodyText : Option String

/-- Pure oracles for the external library functions the source calls:
`hostname` is `urlparse(u).hostname` (`none` for no host or a parse
exception — both make `is_localhost_url` answer `False`), `urljoin` is
`urllib.parse.urljoin`, `jsonLoads` is `json.loads` (`none` = raises),
`b64decode` is `base64.b64decode(txt).decode("utf-8")` (`none` =
raises), the three `reSearch*` functions are `re.search` with the
source's three patterns (submit-URL, any-URL, first numeric token),
returning the matched substring, and `download` is
`download_file_bytes` composed with `pdfplumber.open`: outer `none`
when the HTTP fetch raises, inner `Option PDFDoc` the open result on
the fetched bytes. -/
structure World where
  hostname : String → Option String
  urljoin : String → String → String
  jsonLoads : String → Option Json
  b64decode : String → Option String
  reSearchSubmitUrl : String → Option String
  reSearchUrl : String → Option String
  reSearchNum : String → Option String
  download : String → Option (Option PDFDoc)

/-- Embedding of `is_localhost_url`. -/
def is_localhost_url (w : World) (url : String) : Bool :=
  match w.hostname url with
  | none => false
  | some h =>
    let hl := lowerStr h
    if hl == "localhost" || hl == "127.0.0.1" || hl == "::1" then true
    else if strEndsWith hl ".local" then true
    else false

/-- Embedding of `extract_json_from_pre`: direct `json.loads` on the
stripped `<pre>` text, then a base64-decode-and-parse fallback, `None`
when the page has no `<pre>` or both parses fail. -/
def extract_json_from_pre (w : World) (pv : PageView) : Option Json :=
  match pv.preText with
  | none => none
  | some t =>
    let txt := strTrim t
    match w.jsonLoads txt with
    | some j => some j
    | none =>
      match w.b64decode txt with
      | none => none
      | some decoded => w.jsonLoads decoded

/-- Embedding of `find_submit_url_from_page`: first anchor whose href
contains "submit" (case-insensitively), resolved against the base URL;
else a regex scan of the body text for a submit-looking URL; else any
URL; else `None`.  A raising `inner_text` is caught there and treated
as empty text. -/
def find_submit_url_from_page (w : World) (pv : PageView) (base_url : String) :
    Option String :=
  match pv.anchors.find? (fun href => strContains (lowerStr href) "submit") with
  | some href => some (w.urljoin base_url href)
  | none =>
    let text := pv.bodyText.getD ""
    match w.reSearchSubmitUrl text with
    | some m => some m
    | none => w.reSearchUrl text

/-- One attempt of the source's PDF handler: download the bytes, open
them, run `sum_values_on_pdf_page2` with column "value"; every failure
mode (fetch exception, open exception, handler exception, `None`
result) is caught by the caller's `try` and collapses to `none`. -/
def pdfAttempt (w : World) (url : String) : Option Rat :=
  match w.download url with
  | none => none
  | some openRes =>
    match sum_values_on_pdf_page2 openRes "value" with
    | .error _ => none
    | .ok r => r

/-- The source's anchor scan: first `.pdf`-suffixed href whose download
and summation succeeds (failures log and move to the next anchor). -/
def firstPdfVal (w : World) (pageUrl : String) : List String → Option Rat
  | [] => none
  | href :: rest =>
    if strEndsWith (lowerStr href) ".pdf" then
      match pdfAttempt w (w.urljoin pageUrl href) with
      | some v => some v
      | none => firstPdfVal w pageUrl rest
    else firstPdfVal w pageUrl rest

/-- Answer values the Python function can return: a JSON value taken
verbatim from `parsed_json["answer"]`, a float from the PDF handler or
a decimal token, an int token, or a raw string (unparsable token or the
"no-answer-found" sentinel). -/
inductive Value where
  | fromJson (j : Json)
  | float (q : Rat)
  | int (i : Int)
  | str (s : String)

/-- Embedding of `compute_answer_from_page`: (1) a dict `parsed_json`
with an "answer" key returns that value verbatim; still in the dict
case, a string "url" value ending in ".pdf" is tried through the PDF
handler; (2) otherwise each `.pdf` anchor on the page is tried; (3)
otherwise the first numeric token of the body text (a raising
`inner_text` is caught and treated as empty), an integer token as an
int, a decimal one through `float`; else the sentinel. -/
def compute_answer_from_page (w : World) (pv : PageView) (parsed_json : Option Json) :
    Value :=
  let step1 : Option Value :=
    match parsed_json with
    | some (Json.obj kvs) =>
      match lookupKV kvs "answer" with
      | some a => some (.fromJson a)
      | none =>
        match lookupKV kvs "url" with
        | some (Json.str u) =>
          if strEndsWith (lowerStr u) ".pdf" then (pdfAttempt w u).map .float
          else none
        | _ => none
    | _ => none
  match step1 with
  | some v => v
  | none =>
    match firstPdfVal w pv.url pv.anchors with
    | some v => .float v
    | none =>
      let body_text := pv.bodyText.getD ""
      match w.reSearchNum body_text with
      | some v =>
        if isIntToken v then .int (parseIntTok v)
        else
          match pyFloat v with
          | some q => .float q
          | none => .str v
      | none => .str "no-answer-found"

/-- Modelled from the spec's strategy list: strategy 1, the structured
"answer" field of the parsed `<pre>` object. -/
def specStratStructured (parsed_json : Option Json) : Option Value :=
  match parsed_json with
  | some (Json.obj kvs) => (lookupKV kvs "answer").map .fromJson
  | _ => none

/-- Modelled from the spec's strategy list: strategy 2, the linked PDF
file (from the structured object's "url" field, else from the page's
anchors). -/
def specStratPdf (w : World) (pv : PageView) (parsed_json : Option Json) :
    Option Value :=
  let fromJsonUrl : Option Value :=
    match parsed_json with
    | some (Json.obj kvs) =>
      match lookupKV kvs "url" with
      | some (Json.str u) =>
        if strEndsWith (lowerStr u) ".pdf" then (pdfAttempt w u).map .float else none
      | _ => none
    | _ => none
  fromJsonUrl.orElse (fun _ => (firstPdfVal w pv.url pv.anchors).map .float)

/-- Modelled from the spec's strategy list: strategy 3, the textual
numeric fallback on the visible body text. -/
def specStratText (w : World) (pv : PageView) : Option Value :=
  (w.reSearchNum (pv.bodyText.getD "")).map (fun v =>
    if isIntToken v then .int (parseIntTok v)
    else
      match pyFloat v with
      | some q => .float q
      | none => .str v)

/-- Configuration constants read from the environment at startup (the
submission and playwright timeouts only bound durations the environment
already supplies, so they carry no observable effect here). -/
structure Config where
  SOLVE_DEADLINE_SECONDS : Rat
  PER_QUESTION_RETRIES : Int
  PAGE_RENDER_WAIT : Rat

/-- The default configuration values of `app.py`. -/
def defaultConfig : Config := ⟨170, 2, 0.8⟩

/-- Observable actions of one run, stamped with wall-clock times
relative to `start_time = 0`: `attemptStart t` records the inner loop
guard passing at time `t`, `renderStart tEntry t` a `page.goto`
initiated at `t` inside the attempt entered at `tEntry`, and
`submitStart tEntry t url` a `requests.post` to `url` initiated at `t`
inside the attempt entered at `tEntry`. -/
inductive Event where
  | attemptStart (tEntry : Rat)
  | renderStart (tEntry t : Rat)
  | submitStart (tEntry t : Rat) (url : String)
deriving DecidableEq

/-- Entry time of the attempt an event belongs to. -/
def Event.entryTime : Event → Rat
  | .attemptStart t => t
  | .renderStart tE _ => tE
  | .submitStart tE _ _ => tE

/-- Time at which the event's operation is initiated. -/
def Event.time : Event → Rat
  | .attemptStart t => t
  | .renderStart _ t => t
  | .submitStart _ t _ => t

/-- Whether the event is a POST to the grader. -/
def Event.isSubmit : Event → Bool
  | .submitStart _ _ _ => true
  | _ => false

/-- Environment of a single pass through the inner attempt loop body:
durations of the blocking calls plus what the world does.
`newPageErr`: `context.new_page()` raises (generic handler, no page
opened).  `navTimeout` / `navErr`: the page is created, then
`page.goto` raises `PWTimeoutError` / another exception.  `rendered`:
navigation succeeds and yields the page view, evaluation takes `dEval`,
and if a submit target is found the POST behaves as `post` and takes
`dPost`. -/
inductive AttemptEnv where
  | newPageErr (dSetup : Rat)
  | navTimeout (dSetup dNav : Rat)
  | navErr (dSetup dNav : Rat)
  | rendered (dSetup dNav : Rat) (pv : PageView) (dEval : Rat)
      (post : PostResult) (dPost : Rat)

/-- State of the inner attempt loop: the wall clock, the loop variables
`current_url`, `retries_left`, `answered`, and a count of page handles
opened but not yet closed (for the resource-discipline claims). -/
structure St where
  now : Rat
  current_url : Json
  retries_left : Int
  answered : Bool
  openPages : Nat

/-- Python falsiness of the optional submit URL (`if not submit_url:`). -/
def optStrFalsy : Option String → Bool
  | none => true
  | some s => s == ""

/-- One pass through the body of the inner attempt loop (`app.py` lines
207–315), translated branch by branch.  The `try` handlers for
`PWTimeoutError` and generic exceptions decrement the retry budget and
sleep 0.5 s but do NOT close the page; every other exit path closes it.
The body-text read in the no-submit-URL fallback is the one unguarded
`inner_text` call, so `bodyText = none` there lands in the generic
handler. -/
def attemptStep (cfg : Config) (w : World) (deadline : Rat) (st : St) :
    AttemptEnv → St × List Event
  | .newPageErr dSetup =>
    ({ st with now := st.now + dSetup + 0.5,
               retries_left := st.retries_left - 1 },
     [.attemptStart st.now])
  | .navTimeout dSetup dNav =>
    ({ st with now := st.now + dSetup + dNav + 0.5,
               retries_left := st.retries_left - 1,
               openPages := st.openPages + 1 },
     [.attemptStart st.now, .renderStart st.now (st.now + dSetup)])
  | .navErr dSetup dNav =>
    ({ st with now := st.now + dSetup + dNav + 0.5,
               retries_left := st.retries_left - 1,
               openPages := st.openPages + 1 },
     [.attemptStart st.now, .renderStart st.now (st.now + dSetup)])
  | .rendered dSetup dNav pv dEval post dPost =>
    let tRender := st.now + dSetup
    let tEval := tRender + dNav + cfg.PAGE_RENDER_WAIT + dEval
    let parsed_json := extract_json_from_pre w pv
    let submit_url := find_submit_url_from_page w pv st.current_url.asStr
    let _answer := compute_answer_from_page w pv parsed_json
    let evts := [Event.attemptStart st.now, Event.renderStart st.now tRender]
    if optStrFalsy submit_url then
      match pv.bodyText with
      | none =>
        ({ st with now := tEval + 0.5,
                   retries_left := st.retries_left - 1,
                   openPages := st.openPages + 1 }, evts)
      | some body =>
        match w.reSearchUrl (strTake body 3000) with
        | some candidate =>
          if st.current_url.eqStr candidate then
            ({ st with now := tEval, current_url := Json.null, answered := true }, evts)
          else
            ({ st with now := tEval, current_url := Json.str candidate, answered := true }, evts)
        | none =>
          ({ st with now := tEval, current_url := Json.null, answered := true }, evts)
    else
      let u := submit_url.getD ""
      let tSubmit := tEval
      let evts := evts ++ [Event.submitStart st.now tSubmit u]
      match submit_answer_json post with
      | .error _ =>
        ({ st with now := tSubmit + dPost + 0.5,
                   retries_left := st.retries_left - 1 }, evts)
      | .ok resp =>
        let correct := resp.get "correct"
        let nextJ := (resp.get "url").getD Json.null
        let tResp := tSubmit + dPost
        if Json.isTrue correct then
          if nextJ.truthy then
            ({ st with now := tResp, current_url := nextJ, answered := true }, evts)
          else
            ({ st with now := tResp, current_url := Json.null, answered := true }, evts)
        else
          if nextJ.truthy then
            if 0 < st.retries_left ∧ 8 < deadline - tResp then
              ({ st with now := tResp + 0.5,
                         retries_left := st.retries_left - 1 }, evts)
            else
              ({ st with now := tResp, current_url := nextJ, answered := true }, evts)
          else
            if 0 < st.retries_left ∧ 8 < deadline - tResp then
              ({ st with now := tResp + 0.5,
                         retries_left := st.retries_left - 1 }, evts)
            else
              ({ st with now := tResp, current_url := Json.null, answered := true }, evts)

/-- The inner attempt loop (`while time.time() < deadline and
retries_left >= 0 and not answered`), consuming one `AttemptEnv` per
iteration; it also returns the unconsumed environments. -/
def innerLoop (cfg : Config) (w : World) (deadline : Rat) :
    St → List AttemptEnv → St × List Event × List AttemptEnv
  | st, [] => (st, [], [])
  | st, aenv :: rest =>
    if st.now < deadline ∧ 0 ≤ st.retries_left ∧ st.answered = false then
      let p1 := attemptStep cfg w deadline st aenv
      let p2 := innerLoop cfg w deadline p1.1 rest
      (p2.1, p1.2 ++ p2.2.1, p2.2.2)
    else
      (st, [], aenv :: rest)

/-- State of the outer task loop. -/
structure OuterSt where
  now : Rat
  current_url : Json
  task_count : Nat
  openPages : Nat

/-- The outer task loop (`while current_url and time.time() <
deadline`): each iteration starts a task, resets the retry budget and
runs the inner loop; `fuel` bounds the number of outer iterations (the
source's loop can iterate without consuming environment events only
until the wall clock reaches the deadline). -/
def outerLoop (cfg : Config) (w : World) (deadline : Rat) :
    Nat → OuterSt → List AttemptEnv → OuterSt × List Event
  | 0, st, _ => (st, [])
  | fuel + 1, st, envs =>
    if st.current_url.truthy ∧ st.now < deadline then
      let stI : St := ⟨st.now, st.current_url, cfg.PER_QUESTION_RETRIES, false, st.openPages⟩
      let p1 := innerLoop cfg w deadline stI envs
      let stO : OuterSt := ⟨p1.1.now, p1.1.current_url, st.task_count + 1, p1.1.openPages⟩
      let p2 := outerLoop cfg w deadline fuel stO p1.2.2
      (p2.1, p1.2.1 ++ p2.2)
    else (st, [])

/-- Terminal disposition of a run: `aborted` is the pre-launch
local-URL rejection, `crashed` the fatal path (the outer `except`, for
example a renderer launch failure), `ran` a loop that executed. -/
inductive OutcomeKind where
  | aborted
  | crashed
  | ran
deriving DecidableEq

/-- Observable result of a whole run: its disposition, the event trace,
and the final loop state when the loop ran. -/
structure RunResult where
  kind : OutcomeKind
  trace : List Event
  final : Option OuterSt

/-- Environment of a whole run: whether `pw.chromium.launch` raises,
the outer-loop fuel, and the per-attempt environments. -/
structure SolverEnv where
  launchFails : Bool
  outerFuel : Nat
  attempts : List AttemptEnv

/-- Embedding of `solve_and_submit_loop`, with `start_time = 0` so the
deadline is `SOLVE_DEADLINE_SECONDS`.  The email and secret only enter
the submission payload, which no claim observes. -/
def solve_and_submit_loop (cfg : Config) (w : World) (env : SolverEnv)
    (_email _secret : String) (start_url : String) : RunResult :=
  let deadline := cfg.SOLVE_DEADLINE_SECONDS
  if is_localhost_url w start_url then ⟨.aborted, [], none⟩
  else if env.launchFails then ⟨.crashed, [], none⟩
  else
    let st0 : OuterSt := ⟨0, Json.str start_url, 0, 0⟩
    let p := outerLoop cfg w deadline env.outerFuel st0 env.attempts
    ⟨.ran, p.2, some p.1⟩

/-- A world whose oracles all answer negatively; concrete witnesses
override individual fields. -/
def wBase : World where
  hostname := fun _ => none
  urljoin := fun _ h => h
  jsonLoads := fun _ => none
  b64decode := fun _ => none
  reSearchSubmitUrl := fun _ => none
  reSearchUrl := fun _ => none
  reSearchNum := fun _ => none
  download := fun _ => none

/-- A world that resolves every hostname to the loopback address. -/
def wLoc : World := { wBase with hostname := fun _ => some "127.0.0.1" }

/-- A world for the base64 `<pre>` witness: direct JSON parse fails on
the base64 text, the decode yields "42" which parses as the number. -/
def wB64 : World := { wBase with
  jsonLoads := fun s => if s == "42" then some (.num 42) else none
  b64decode := fun s => if s == "NDI=" then some "42" else none }

/-- A page carrying one submit link and empty body text. -/
def pvSubmit : PageView := ⟨"http://start/q1", none, ["http://g/submit"], some ""⟩

/-- A run environment whose single attempt renders for 170 seconds and
then posts: the POST is initiated after the 170-second deadline. -/
def envLate : SolverEnv := ⟨false, 1, [.rendered 0 170 pvSubmit 0 .netErr 0]⟩

/-- A run environment with two navigation timeouts: each one leaves its
page handle open. -/
def envTwoTimeouts : SolverEnv := ⟨false, 1, [.navTimeout 0 1, .navTimeout 0 1]⟩

/-- A run environment with a single attempt that fails before a page
opens (used to exhibit a nonempty trace). -/
def envOneErr : SolverEnv := ⟨false, 1, [.newPageErr 0]⟩

/-- An inner-loop state sitting on a task with the default retry
budget. -/
def stQ : St := ⟨0, .str "http://x/q2", 2, false, 0⟩

/-- A grader response marking the answer wrong but offering a next
URL. -/
def postWrong : PostResult :=
  .ok 200 (some (.obj [("correct", .bool false), ("url", .str "http://x/q3")])) "{}"

/-- A world in which the submit anchor resolves to the empty (falsy)
URL while the any-URL scan of the body finds the current URL itself (in
a real run this arises when the body text exceeds the 3000-character
window or the first body read fails transiently). -/
def wSelf : World :=
  { wBase with urljoin := fun _ _ => ""
               reSearchUrl := fun _ => some "http://x/q" }

/-- An inner-loop state whose current URL is the one `wSelf` finds. -/
def stSelf : St := ⟨0, .str "http://x/q", 2, false, 0⟩

/-- A page whose body text mentions only the current URL. -/
def pvLoop : PageView := ⟨"http://x/q", none, ["http://x/submit"], some "see http://x/q"⟩

/-- A world whose numeric-token regex finds "7" in any text. -/
def wNum : World := { wBase with reSearchNum := fun _ => some "7" }

/-- C2: for every start URL whose hostname is localhost, 127.0.0.1,
::1, or ends in .local, the solver returns immediately in the aborted
state: the browser is never launched and the trace is empty (zero
render attempts, zero HTTP requests). -/
theorem C2_localhost_rejected (cfg : Config) (w : World) (env : SolverEnv)
    (email secret url hn : String)
    (hh : w.hostname url = some hn)
    (hloc : lowerStr hn = "localhost" ∨ lowerStr hn = "127.0.0.1" ∨
            lowerStr hn = "::1" ∨ strEndsWith (lowerStr hn) ".local" = true) :
    (solve_and_submit_loop cfg w env email secret url).kind = .aborted ∧
    (solve_and_submit_loop cfg w env email secret url).trace = [] := by
  have hl : is_localhost_url w url = true := by
    unfold is_localhost_url
    rw [hh]
    rcases hloc with h | h | h | h <;> simp [h]
  unfold solve_and_submit_loop
  simp [hl]

/-- C2 witness: the spec's own example URL, with the hostname oracle
answering as `urlparse` does. -/
theorem C2_witness :
    (solve_and_submit_loop defaultConfig wLoc ⟨false, 1, []⟩ "a@b.c" "s"
        "http://127.0.0.1:9999/quiz").kind = .aborted ∧
    (solve_and_submit_loop defaultConfig wLoc ⟨false, 1, []⟩ "a@b.c" "s"
        "http://127.0.0.1:9999/quiz").trace = [] :=
  C2_localhost_rejected defaultConfig wLoc ⟨false, 1, []⟩ "a@b.c" "s"
    "http://127.0.0.1:9999/quiz" "127.0.0.1" rfl (Or.inr (Or.inl (by decide)))

/-- C10: `extract_json_from_pre` returns the direct JSON parse of the
stripped `<pre>` text when it succeeds; otherwise attempts to
base64-decode the text and parse the decoded string, returning that
object on success; and returns null (never raising) exactly when the
page has no `<pre>` element or both the direct parse and the
base64-decoded parse fail. -/
theorem C10_pre_base64_fallback (w : World) (pv : PageView) :
    (pv.preText = none → extract_json_from_pre w pv = none) ∧
    (∀ t j, pv.preText = some t → w.jsonLoads (strTrim t) = some j →
      extract_json_from_pre w pv = some j) ∧
    (∀ t d j, pv.preText = some t → w.jsonLoads (strTrim t) = none →
      w.b64decode (strTrim t) = some d → w.jsonLoads d = some j →
      extract_json_from_pre w pv = some j) ∧
    (∀ t, pv.preText = some t → w.jsonLoads (strTrim t) = none →
      (w.b64decode (strTrim t) = none ∨
        ∃ d, w.b64decode (strTrim t) = some d ∧ w.jsonLoads d = none) →
      extract_json_from_pre w pv = none) := by
  refine ⟨?_, ?_, ?_, ?_⟩
  · intro h; simp [extract_json_from_pre, h]
  · intro t j h1 h2; simp [extract_json_from_pre, h1, h2]
  · intro t d j h1 h2 h3 h4; simp [extract_json_from_pre, h1, h2, h3, h4]
  · intro t h1 h2 h3
    rcases h3 with h3 | ⟨d, h3, h4⟩ <;> simp [extract_json_from_pre, h1, h2, h3, *]

/-- C10 witness: a `<pre>` whose text fails direct parsing but whose
base64 decoding parses. -/
theorem C10_witness :
    extract_json_from_pre wB64 ⟨"http://x", some "NDI=", [], none⟩ = some (.num 42) :=
  (C10_pre_base64_fallback wB64 ⟨"http://x", some "NDI=", [], none⟩).2.2.1
    "NDI=" "42" (.num 42) rfl rfl rfl rfl

/-- Every branch of `sum_values_on_pdf_page2` after a successful
`pdfplumber.open` returns normally (`Except.ok`). -/
theorem sum_pdf_ok_of_open (pdf : PDFDoc) (col : String) :
    ∃ r, sum_values_on_pdf_page2 (some pdf) col = .ok r := by
  rcases pdf with ⟨_ | ⟨p0, _ | ⟨p1, rest⟩⟩⟩
  · exact ⟨none, rfl⟩
  · exact ⟨none, rfl⟩
  · cases h : p1.extractTable with
    | none => exact ⟨none, by simp [sum_values_on_pdf_page2, h]⟩
    | some tbl =>
      cases tbl with
      | nil => exact ⟨none, by simp [sum_values_on_pdf_page2, h]⟩
      | cons headers rows =>
        cases h2 : (headers.map (fun h => lowerStr (h.getD ""))).findIdx?
            (fun h => h == lowerStr col) with
        | none => exact ⟨none, by simp [sum_values_on_pdf_page2, h, h2]⟩
        | some idx =>
          simp only [sum_values_on_pdf_page2, h, h2]
          exact ⟨_, rfl⟩

/-- C6 (amended): on every byte string that opens as a valid PDF
document, `sum_values_on_pdf_page2` never raises; it returns null when
there are fewer than two pages, when page 2 yields no (or an empty)
table, or when no column matches; the result depends only on the
second page (zero-based index 1); and the column match is
case-insensitive.  (On bytes that fail to open, the `pdfplumber.open`
exception propagates — see the counterexample.) -/
theorem C6_pdf_page2_amended :
    (∀ pdf col, ∃ r, sum_values_on_pdf_page2 (some pdf) col = .ok r) ∧
    (∀ pdf col, pdf.pages.length < 2 →
      sum_values_on_pdf_page2 (some pdf) col = .ok none) ∧
    (∀ p0 p0' p1 r r' col,
      sum_values_on_pdf_page2 (some ⟨p0 :: p1 :: r⟩) col =
        sum_values_on_pdf_page2 (some ⟨p0' :: p1 :: r'⟩) col) ∧
    (∀ pdf col col', lowerStr col = lowerStr col' →
      sum_values_on_pdf_page2 (some pdf) col =
        sum_values_on_pdf_page2 (some pdf) col') ∧
    (∀ p0 p1 r col, p1.extractTable = none ∨ p1.extractTable = some [] →
      sum_values_on_pdf_page2 (some ⟨p0 :: p1 :: r⟩) col = .ok none) ∧
    (∀ p0 p1 r col headers rows, p1.extractTable = some (headers :: rows) →
      (headers.map (fun h => lowerStr (h.getD ""))).findIdx?
          (fun h => h == lowerStr col) = none →
      sum_values_on_pdf_page2 (some ⟨p0 :: p1 :: r⟩) col = .ok none) := by
  refine ⟨sum_pdf_ok_of_open, ?_, ?_, ?_, ?_, ?_⟩
  · intro pdf col hlen
    rcases pdf with ⟨_ | ⟨p0, _ | ⟨p1, rest⟩⟩⟩
    · rfl
    · rfl
    · simp at hlen; omega
  · intro p0 p0' p1 r r' col
    simp [sum_values_on_pdf_page2]
  · intro pdf col col' hcc
    rcases pdf with ⟨_ | ⟨p0, _ | ⟨p1, rest⟩⟩⟩
    · rfl
    · rfl
    · simp [sum_values_on_pdf_page2, hcc]
  · intro p0 p1 r col h
    rcases h with h | h <;> simp [sum_values_on_pdf_page2, h]
  · intro p0 p1 r col headers rows h h2
    simp [sum_values_on_pdf_page2, h, h2]

unseal Rat.add Rat.sub Rat.mul Rat.inv Rat.ofScientific in
/-- C6 witness: a two-page PDF whose second page has a "Value" column
(matched case-insensitively against the requested "value") summing
1,200 + 3.5 while a malformed cell is skipped. -/
theorem C6_witness :
    (∃ r, sum_values_on_pdf_page2
        (some ⟨[⟨none⟩, ⟨some [[some "Name", some "Value"],
                              [some "a", some "1,200"],
                              [some "b", some "3.5"],
                              [some "c", some "n/a"]]⟩]⟩) "value" = .ok r) ∧
    sum_values_on_pdf_page2
        (some ⟨[⟨none⟩, ⟨some [[some "Name", some "Value"],
                              [some "a", some "1,200"],
                              [some "b", some "3.5"],
                              [some "c", some "n/a"]]⟩]⟩) "value" = .ok (some 1203.5) :=
  ⟨C6_pdf_page2_amended.1 _ "value", by rfl⟩

/-- C6 counterexample: on a byte string that `pdfplumber.open` cannot
parse (for example `b"not a pdf"`), the open call raises and the
exception propagates out of `sum_values_on_pdf_page2`, contradicting
the claim that the function never raises for every input byte
string. -/
theorem C6_counterexample :
    sum_values_on_pdf_page2 none "value" = .error () := rfl

/-- C7: the submission client surfaces every transport failure and
every non-success HTTP status (400–599, the range `raise_for_status`
rejects) as an exception that the solver catches as a recoverable
failure — one retry consumed, the attempt loop continues with the same
URL — and wraps a non-JSON response body as
`{"non_json_response": raw text}`, so a parse failure is never an
exception. -/
theorem C7_submission_client (cfg : Config) (w : World) (deadline : Rat) (st : St) :
    (submit_answer_json .netErr = .error ()) ∧
    (∀ status body text, 400 ≤ status → status < 600 →
      submit_answer_json (.ok status body text) = .error ()) ∧
    (∀ status text, ¬(400 ≤ status ∧ status < 600) →
      submit_answer_json (.ok status none text) =
        .ok (.obj [("non_json_response", .str text)])) ∧
    (∀ status text j, ¬(400 ≤ status ∧ status < 600) →
      submit_answer_json (.ok status (some j) text) = .ok j) ∧
    (∀ dS dN pv dE post dP,
      optStrFalsy (find_submit_url_from_page w pv st.current_url.asStr) = false →
      submit_answer_json post = .error () →
      (attemptStep cfg w deadline st (.rendered dS dN pv dE post dP)).1.retries_left
          = st.retries_left - 1 ∧
      (attemptStep cfg w deadline st (.rendered dS dN pv dE post dP)).1.answered
          = st.answered ∧
      (attemptStep cfg w deadline st (.rendered dS dN pv dE post dP)).1.current_url
          = st.current_url) := by
  refine ⟨rfl, ?_, ?_, ?_, ?_⟩
  · intro status body text h1 h2
    simp [submit_answer_json, h1, h2]
  · intro status text h
    simp [submit_answer_json, h]
  · intro status text j h
    simp [submit_answer_json, h]
  · intro dS dN pv dE post dP hsub herr
    refine ⟨?_, ?_, ?_⟩ <;> simp [attemptStep, hsub, herr]

/-- C3: when the grader reports the answer not correct and supplies a
next URL, the solver retries the same current URL — unchanged,
consuming exactly one retry unit and not marking the task answered —
precisely when retries remain (`retries_left > 0`) and more than 8
seconds remain before the deadline; otherwise it advances, setting
`current_url` to the grader-provided next URL without consuming a
retry. -/
theorem C3_unconfirmed_next_url (cfg : Config) (w : World) (deadline : Rat) (st : St)
    (dS dN dE dP : Rat) (pv : PageView) (post : PostResult) (resp : Json)
    (hsub : optStrFalsy (find_submit_url_from_page w pv st.current_url.asStr) = false)
    (hresp : submit_answer_json post = .ok resp)
    (hcorr : Json.isTrue (resp.get "correct") = false)
    (hnext : ((resp.get "url").getD Json.null).truthy = true) :
    (0 < st.retries_left ∧
        8 < deadline - (st.now + dS + dN + cfg.PAGE_RENDER_WAIT + dE + dP) →
      (attemptStep cfg w deadline st (.rendered dS dN pv dE post dP)).1.current_url
          = st.current_url ∧
      (attemptStep cfg w deadline st (.rendered dS dN pv dE post dP)).1.retries_left
          = st.retries_left - 1 ∧
      (attemptStep cfg w deadline st (.rendered dS dN pv dE post dP)).1.answered
          = st.answered) ∧
    (¬(0 < st.retries_left ∧
        8 < deadline - (st.now + dS + dN + cfg.PAGE_RENDER_WAIT + dE + dP)) →
      (attemptStep cfg w deadline st (.rendered dS dN pv dE post dP)).1.current_url
          = (resp.get "url").getD Json.null ∧
      (attemptStep cfg w deadline st (.rendered dS dN pv dE post dP)).1.answered
          = true ∧
      (attemptStep cfg w deadline st (.rendered dS dN pv dE post dP)).1.retries_left
          = st.retries_left) := by
  constructor
  · intro hc
    refine ⟨?_, ?_, ?_⟩ <;> simp [attemptStep, hsub, hresp, hcorr, hnext, hc]
  · intro hc
    refine ⟨?_, ?_, ?_⟩ <;> simp [attemptStep, hsub, hresp, hcorr, hnext, hc]

unseal Rat.add Rat.sub Rat.mul Rat.inv Rat.ofScientific in
/-- C3 witness: a wrong answer with next URL `q3`, two retries left and
more than 8 seconds of budget: the solver keeps the same URL and
consumes one retry. -/
theorem C3_witness :
    (attemptStep defaultConfig wBase 170 stQ (.rendered 0 0 pvSubmit 0 postWrong 0)).1.current_url
        = stQ.current_url ∧
    (attemptStep defaultConfig wBase 170 stQ (.rendered 0 0 pvSubmit 0 postWrong 0)).1.retries_left
        = stQ.retries_left - 1 ∧
    (attemptStep defaultConfig wBase 170 stQ (.rendered 0 0 pvSubmit 0 postWrong 0)).1.answered
        = stQ.answered :=
  (C3_unconfirmed_next_url defaultConfig wBase 170 stQ 0 0 0 0 pvSubmit postWrong
      (.obj [("correct", .bool false), ("url", .str "http://x/q3")])
      (by decide) rfl rfl rfl).1
    ⟨by decide, by norm_num [stQ, defaultConfig]⟩

/-- C4: when no submit target is found on the page, the fallback scans
the leading 3000 characters of the body text for a URL; if the
candidate equals the current URL, or no candidate exists, the chain
terminates: `current_url` becomes null, the attempt is marked answered,
and the outer loop exits immediately on a null current URL. -/
theorem C4_fallback_self_loop (cfg : Config) (w : World) (deadline : Rat) (st : St)
    (dS dN dE dP : Rat) (pv : PageView) (post : PostResult) (body : String)
    (hsub : optStrFalsy (find_submit_url_from_page w pv st.current_url.asStr) = true)
    (hbody : pv.bodyText = some body) :
    (∀ c, w.reSearchUrl (strTake body 3000) = some c → st.current_url.eqStr c = true →
      (attemptStep cfg w deadline st (.rendered dS dN pv dE post dP)).1.current_url
          = Json.null ∧
      (attemptStep cfg w deadline st (.rendered dS dN pv dE post dP)).1.answered = true) ∧
    (w.reSearchUrl (strTake body 3000) = none →
      (attemptStep cfg w deadline st (.rendered dS dN pv dE post dP)).1.current_url
          = Json.null ∧
      (attemptStep cfg w deadline st (.rendered dS dN pv dE post dP)).1.answered = true) ∧
    (∀ fuel stO envs, OuterSt.current_url stO = Json.null →
      outerLoop cfg w deadline fuel stO envs = (stO, [])) := by
  refine ⟨?_, ?_, ?_⟩
  · intro c hc heq
    constructor <;> simp [attemptStep, hsub, hbody, hc, heq]
  · intro hc
    constructor <;> simp [attemptStep, hsub, hbody, hc]
  · intro fuel stO envs h
    cases fuel with
    | zero => simp [outerLoop]
    | succ n => simp [outerLoop, h, Json.truthy]

/-- C4 witness: the fallback scan returns the current URL itself, so
the attempt nulls the current URL and the chain ends. -/
theorem C4_witness :
    (attemptStep defaultConfig wSelf 170 stSelf (.rendered 0 0 pvLoop 0 .netErr 0)).1.current_url
        = Json.null ∧
    (attemptStep defaultConfig wSelf 170 stSelf (.rendered 0 0 pvLoop 0 .netErr 0)).1.answered
        = true :=
  (C4_fallback_self_loop defaultConfig wSelf 170 stSelf 0 0 0 0 pvLoop .netErr
      "see http://x/q" (by decide) rfl).1 "http://x/q" (by decide) (by decide)

unseal Rat.add Rat.sub Rat.mul Rat.inv Rat.ofScientific in
/-- C7 witness: a 503 response raises inside the client, and the solver
absorbs a failing submission by consuming one retry with the task left
unanswered. -/
theorem C7_witness :
    submit_answer_json (.ok 503 none "oops") = .error () ∧
    (attemptStep defaultConfig wBase 170 stQ (.rendered 0 0 pvSubmit 0 .netErr 0)).1.retries_left
        = stQ.retries_left - 1 ∧
    (attemptStep defaultConfig wBase 170 stQ (.rendered 0 0 pvSubmit 0 .netErr 0)).1.answered
        = stQ.answered :=
  ⟨(C7_submission_client defaultConfig wBase 170 stQ).2.1 503 none "oops"
      (by norm_num) (by norm_num),
   ((C7_submission_client defaultConfig wBase 170 stQ).2.2.2.2 0 0 pvSubmit 0 .netErr 0
      (by decide) rfl).1,
   ((C7_submission_client defaultConfig wBase 170 stQ).2.2.2.2 0 0 pvSubmit 0 .netErr 0
      (by decide) rfl).2.1⟩

/-- The tail of the extractor (PDF-anchor scan, then textual fallback)
agrees with the corresponding suffix of the spec's strategy chain. -/
theorem compute_tail_eq (w : World) (pv : PageView) :
    (match firstPdfVal w pv.url pv.anchors with
     | some v => Value.float v
     | none =>
       match w.reSearchNum (pv.bodyText.getD "") with
       | some v =>
         if isIntToken v then Value.int (parseIntTok v)
         else
           match pyFloat v with
           | some q => Value.float q
           | none => Value.str v
       | none => Value.str "no-answer-found") =
    (((firstPdfVal w pv.url pv.anchors).map Value.float).orElse
       (fun _ => specStratText w pv)).getD (Value.str "no-answer-found") := by
  cases h : firstPdfVal w pv.url pv.anchors with
  | some v => simp [h, Option.orElse]
  | none =>
    cases h2 : w.reSearchNum (pv.bodyText.getD "") with
    | some v => simp [h, h2, specStratText, Option.orElse]
    | none => simp [h, h2, specStratText, Option.orElse]

/-- C5: `compute_answer_from_page` equals the ordered strategy chain —
structured answer, then linked PDF, then textual numeric fallback —
with the first non-null strategy result winning and the sentinel
returned when all decline; in particular a document exposing both a
structured "answer" field and a numeric body token yields the
structured value, never the textual fallback. -/
theorem C5_extractor_priority (w : World) (pv : PageView) :
    (∀ parsed_json, compute_answer_from_page w pv parsed_json =
      (((specStratStructured parsed_json).orElse
          (fun _ => specStratPdf w pv parsed_json)).orElse
        (fun _ => specStratText w pv)).getD (Value.str "no-answer-found")) ∧
    (∀ kvs a tok, lookupKV kvs "answer" = some a →
      w.reSearchNum (pv.bodyText.getD "") = some tok →
      compute_answer_from_page w pv (some (.obj kvs)) = .fromJson a) := by
  have tail := compute_tail_eq w pv
  constructor
  · intro pj
    match pj with
    | none =>
      simpa [compute_answer_from_page, specStratStructured, specStratPdf,
             Option.orElse] using tail
    | some (.null) =>
      simpa [compute_answer_from_page, specStratStructured, specStratPdf,
             Option.orElse] using tail
    | some (.bool b) =>
      simpa [compute_answer_from_page, specStratStructured, specStratPdf,
             Option.orElse] using tail
    | some (.num q) =>
      simpa [compute_answer_from_page, specStratStructured, specStratPdf,
             Option.orElse] using tail
    | some (.str s) =>
      simpa [compute_answer_from_page, specStratStructured, specStratPdf,
             Option.orElse] using tail
    | some (.arr xs) =>
      simpa [compute_answer_from_page, specStratStructured, specStratPdf,
             Option.orElse] using tail
    | some (.obj kvs) =>
      cases ha : lookupKV kvs "answer" with
      | some a =>
        simp [compute_answer_from_page, specStratStructured, specStratPdf, ha,
              Option.orElse]
      | none =>
        cases hu : lookupKV kvs "url" with
        | none =>
          simpa [compute_answer_from_page, specStratStructured, specStratPdf, ha, hu,
                 Option.orElse] using tail
        | some ju =>
          match ju with
          | .str u =>
            by_cases hp : strEndsWith (lowerStr u) ".pdf" = true
            · cases hd : pdfAttempt w u with
              | some v =>
                simp [compute_answer_from_page, specStratStructured, specStratPdf,
                      ha, hu, hp, hd, Option.orElse]
              | none =>
                simpa [compute_answer_from_page, specStratStructured, specStratPdf,
                       ha, hu, hp, hd, Option.orElse] using tail
            · simpa [compute_answer_from_page, specStratStructured, specStratPdf,
                     ha, hu, hp, Option.orElse] using tail
          | .null =>
            simpa [compute_answer_from_page, specStratStructured, specStratPdf, ha, hu,
                   Option.orElse] using tail
          | .bool b =>
            simpa [compute_answer_from_page, specStratStructured, specStratPdf, ha, hu,
                   Option.orElse] using tail
          | .num q =>
            simpa [compute_answer_from_page, specStratStructured, specStratPdf, ha, hu,
                   Option.orElse] using tail
          | .arr xs =>
            simpa [compute_answer_from_page, specStratStructured, specStratPdf, ha, hu,
                   Option.orElse] using tail
          | .obj kvs2 =>
            simpa [compute_answer_from_page, specStratStructured, specStratPdf, ha, hu,
                   Option.orElse] using tail
  · intro kvs a tok ha htok
    simp [compute_answer_from_page, ha]

/-- C5 witness: a page with both a structured answer field and a
numeric body token returns the structured value verbatim. -/
theorem C5_witness :
    compute_answer_from_page wNum ⟨"http://x", some "{}", [], some "7 items"⟩
        (some (.obj [("answer", .str "42")])) = .fromJson (.str "42") :=
  (C5_extractor_priority wNum ⟨"http://x", some "{}", [], some "7 items"⟩).2
    [("answer", .str "42")] (.str "42") "7" rfl rfl

/-- Every attempt changes the retry budget by zero or exactly one
decrement — never more, never an increment. -/
theorem attemptStep_retries (cfg : Config) (w : World) (deadline : Rat) (st : St)
    (aenv : AttemptEnv) :
    (attemptStep cfg w deadline st aenv).1.retries_left = st.retries_left ∨
    (attemptStep cfg w deadline st aenv).1.retries_left = st.retries_left - 1 := by
  rcases aenv with dS | ⟨dS, dN⟩ | ⟨dS, dN⟩ | ⟨dS, dN, pv, dE, post, dP⟩
  · right; rfl
  · right; rfl
  · right; rfl
  · simp only [attemptStep]
    split
    · split
      · simp
      · split
        · split <;> simp
        · simp
    · split
      · simp
      · split
        · split <;> simp
        · split
          · split <;> simp
          · split <;> simp

/-- The inner loop never lets the retry budget drop below -1, the value
that terminates the attempt loop. -/
theorem innerLoop_retries (cfg : Config) (w : World) (deadline : Rat) :
    ∀ envs (st : St), -1 ≤ st.retries_left →
      -1 ≤ (innerLoop cfg w deadline st envs).1.retries_left := by
  intro envs
  induction envs with
  | nil => intro st h; simpa [innerLoop] using h
  | cons a rest ih =>
    intro st h
    by_cases hg : st.now < deadline ∧ 0 ≤ st.retries_left ∧ st.answered = false
    · rw [innerLoop, if_pos hg]
      refine ih _ ?_
      rcases attemptStep_retries cfg w deadline st a with h1 | h1 <;> (rw [h1]; omega)
    · rw [innerLoop, if_neg hg]
      exact h

/-- C8: the retry budget never goes below -1, the value that forces the
attempt loop to stop; each attempt consumes at most one retry unit
(never more, never a negative amount), and each recoverable failure —
render timeout, render exception, failed page setup, or submission
network failure — consumes exactly one. -/
theorem C8_retry_budget (cfg : Config) (w : World) (deadline : Rat) :
    (∀ (st : St) aenv,
      (attemptStep cfg w deadline st aenv).1.retries_left = st.retries_left ∨
      (attemptStep cfg w deadline st aenv).1.retries_left = st.retries_left - 1) ∧
    (∀ (st : St) dS dN,
      (attemptStep cfg w deadline st (.navTimeout dS dN)).1.retries_left
        = st.retries_left - 1) ∧
    (∀ (st : St) dS dN,
      (attemptStep cfg w deadline st (.navErr dS dN)).1.retries_left
        = st.retries_left - 1) ∧
    (∀ (st : St) dS,
      (attemptStep cfg w deadline st (.newPageErr dS)).1.retries_left
        = st.retries_left - 1) ∧
    (∀ (st : St) dS dN pv dE post dP,
      optStrFalsy (find_submit_url_from_page w pv st.current_url.asStr) = false →
      submit_answer_json post = .error () →
      (attemptStep cfg w deadline st (.rendered dS dN pv dE post dP)).1.retries_left
        = st.retries_left - 1) ∧
    (∀ envs (st : St), -1 ≤ st.retries_left →
      -1 ≤ (innerLoop cfg w deadline st envs).1.retries_left) := by
  refine ⟨attemptStep_retries cfg w deadline, ?_, ?_, ?_, ?_,
          innerLoop_retries cfg w deadline⟩
  · intro st dS dN; rfl
  · intro st dS dN; rfl
  · intro st dS; rfl
  · intro st dS dN pv dE post dP hsub herr
    simp [attemptStep, hsub, herr]

unseal Rat.add Rat.sub Rat.mul Rat.inv Rat.ofScientific in
/-- C8 witness: a navigation timeout consumes exactly one retry, and an
inner loop fed four successive timeouts on a budget of two ends at
exactly -1. -/
theorem C8_witness :
    (attemptStep defaultConfig wBase 170 stQ (.navTimeout 0 1)).1.retries_left
        = stQ.retries_left - 1 ∧
    -1 ≤ (innerLoop defaultConfig wBase 170 stQ
        [.navTimeout 0 1, .navTimeout 0 1, .navTimeout 0 1, .navTimeout 0 1]).1.retries_left :=
  ⟨(C8_retry_budget defaultConfig wBase 170).2.1 stQ 0 1,
   (C8_retry_budget defaultConfig wBase 170).2.2.2.2.2
     [.navTimeout 0 1, .navTimeout 0 1, .navTimeout 0 1, .navTimeout 0 1] stQ (by decide)⟩

unseal Rat.add Rat.sub Rat.mul Rat.inv Rat.ofScientific in
/-- C9: evaluating the loop on a run whose two attempts both time out
during navigation shows both page handles still open at the end — the
`PWTimeoutError` and generic exception handlers in the source decrement
the retry budget and sleep but never call `page.close()`, so a second
render session is opened while the first is still open, contradicting
the documented discipline that every exit path closes the page. -/
theorem C9_page_leak_on_timeout :
    ((solve_and_submit_loop defaultConfig wBase envTwoTimeouts "a@b.c" "s"
        "http://start/q1").final.map OuterSt.openPages) = some 2 := by decide

/-- Every event an attempt emits carries the attempt's entry time. -/
theorem attemptStep_entryTime (cfg : Config) (w : World) (deadline : Rat) (st : St)
    (aenv : AttemptEnv) :
    ∀ e ∈ (attemptStep cfg w deadline st aenv).2, e.entryTime = st.now := by
  rcases aenv with dS | ⟨dS, dN⟩ | ⟨dS, dN⟩ | ⟨dS, dN, pv, dE, post, dP⟩
  · simp [attemptStep, Event.entryTime]
  · simp [attemptStep, Event.entryTime]
  · simp [attemptStep, Event.entryTime]
  · simp only [attemptStep]
    split
    · split
      · simp [Event.entryTime]
      · split
        · split <;> simp [Event.entryTime]
        · simp [Event.entryTime]
    · split
      · intro e he
        simp at he
        rcases he with rfl | rfl | rfl <;> rfl
      · split
        · split <;> (intro e he; simp at he; rcases he with rfl | rfl | rfl <;> rfl)
        · split
          · split <;> (intro e he; simp at he; rcases he with rfl | rfl | rfl <;> rfl)
          · split <;> (intro e he; simp at he; rcases he with rfl | rfl | rfl <;> rfl)

/-- Every event the inner attempt loop emits belongs to an attempt that
began strictly before the deadline (the loop re-checks the clock at
each iteration entry). -/
theorem innerLoop_entry_lt (cfg : Config) (w : World) (deadline : Rat) :
    ∀ envs (st : St) e, e ∈ (innerLoop cfg w deadline st envs).2.1 →
      e.entryTime < deadline := by
  intro envs
  induction envs with
  | nil => intro st e he; simp [innerLoop] at he
  | cons a rest ih =>
    intro st e he
    by_cases hg : st.now < deadline ∧ 0 ≤ st.retries_left ∧ st.answered = false
    · rw [innerLoop, if_pos hg] at he
      rcases List.mem_append.mp he with h1 | h2
      · rw [attemptStep_entryTime cfg w deadline st a e h1]
        exact hg.1
      · exact ih _ e h2
    · rw [innerLoop, if_neg hg] at he
      simp at he

/-- Every event the outer task loop emits belongs to an attempt that
began strictly before the deadline. -/
theorem outerLoop_entry_lt (cfg : Config) (w : World) (deadline : Rat) :
    ∀ fuel (stO : OuterSt) envs e, e ∈ (outerLoop cfg w deadline fuel stO envs).2 →
      e.entryTime < deadline := by
  intro fuel
  induction fuel with
  | zero => intro stO envs e he; simp [outerLoop] at he
  | succ n ih =>
    intro stO envs e he
    by_cases hg : stO.current_url.truthy = true ∧ stO.now < deadline
    · rw [outerLoop, if_pos hg] at he
      rcases List.mem_append.mp he with h1 | h2
      · exact innerLoop_entry_lt cfg w deadline envs _ e h1
      · exact ih _ _ e h2
    · rw [outerLoop, if_neg hg] at he
      simp at he

/-- C1 (amended): the loop checks the clock only at attempt entry, so
every render and every POST belongs to an attempt entered strictly
before the deadline — every event in the trace carries an entry time
below `SOLVE_DEADLINE_SECONDS`.  The individual operations inside an
attempt may still begin at or after the deadline when the earlier steps
of that attempt consume the remaining time (see the counterexample). -/
theorem C1_deadline_at_attempt_entry (cfg : Config) (w : World) (env : SolverEnv)
    (email secret url : String) :
    ∀ e ∈ (solve_and_submit_loop cfg w env email secret url).trace,
      e.entryTime < cfg.SOLVE_DEADLINE_SECONDS := by
  intro e he
  unfold solve_and_submit_loop at he
  by_cases h1 : is_localhost_url w url = true
  · simp [h1] at he
  · by_cases h2 : env.launchFails = true
    · simp [h1, h2] at he
    · simp [h1, h2] at he
      exact outerLoop_entry_lt cfg w cfg.SOLVE_DEADLINE_SECONDS env.outerFuel
        ⟨0, Json.str url, 0, 0⟩ env.attempts e he

unseal Rat.add Rat.sub Rat.mul Rat.inv Rat.ofScientific in
/-- C1 witness: a run with one attempt has its attempt-start event
strictly before the 170-second deadline. -/
theorem C1_witness :
    Event.entryTime (.attemptStart 0) < defaultConfig.SOLVE_DEADLINE_SECONDS :=
  C1_deadline_at_attempt_entry defaultConfig wBase envOneErr "a@b.c" "s"
    "http://start/q1" (.attemptStart 0) (by decide)

unseal Rat.add Rat.sub Rat.mul Rat.inv Rat.ofScientific in
/-- C1 counterexample: an attempt entered 0 seconds in whose navigation
takes 170 seconds initiates its POST at 170.8 seconds, at which moment
`now >= deadline` — the claim that no submission attempt is initiated
at or after the deadline is false of the code, which re-checks the
clock only at attempt entry. -/
theorem C1_counterexample :
    ∃ e ∈ (solve_and_submit_loop defaultConfig wBase envLate "a@b.c" "s"
        "http://start/q1").trace,
      e.isSubmit = true ∧ defaultConfig.SOLVE_DEADLINE_SECONDS ≤ e.time := by decide
